/-
Verification of the NetReveal Playwright test-automation repository.

This file gives a shallow embedding, in Lean 4, of the repository's
non-trivial logic and proves the specification's claims about it:

* `retry` — the linear retry helper from `utils/helpers.ts`
  (bundled in `utils/global-setup.ts` in this snapshot);
* `isRunningInMockMode`, `clickMainMenu`, `sortNameColumnIfNeeded` and
  `getSelectorWLM` from `pages/watchlistManager/WatchlistManagerPage.ts`;
* `navigateToLoginPage`, `login` and `getSelectorLogin` from the
  `LoginPage` page object;
* `navigateToLists` (multi-strategy element lookup) and `getSelectorStd`
  from the `StandardListPage` page object;
* `takeScreenshot` from `utils/helpers.ts`;
* `analyzePage` and the `mcpConnected` flag from
  `tests/ui/WLM/Synonyms/WLMAgencyList.spec.ts`;
* the configuration constants from `config/constants.ts`.

Effectful TypeScript code is modelled by explicit state passing: the
outcomes of the browser-automation primitives that an operation awaits
(navigation results, element visibility, click success) are oracle
parameters of the Lean function, and observable effects (operation
invocations, sleeps, clicks, log lines) are recorded in explicit traces.
-/
import Mathlib

namespace NetRevealSpec

/-- Substring containment, modelling JavaScript `String.prototype.includes`. -/
def strContains (s pat : String) : Bool :=
  decide (pat.toList <:+: s.toList)

/-- Prefix test, modelling JavaScript `String.prototype.startsWith`. -/
def strStartsWith (s pre : String) : Bool :=
  pre.toList.isPrefixOf s.toList

/-- Lower-casing, modelling JavaScript `String.prototype.toLowerCase`
(ASCII). -/
def strToLower (s : String) : String :=
  String.mk (s.toList.map Char.toLower)

/-- Whitespace trimming at both ends, modelling JavaScript
`String.prototype.trim`. -/
def strTrim (s : String) : String :=
  String.mk
    (((s.toList.dropWhile Char.isWhitespace).reverse.dropWhile
        Char.isWhitespace).reverse)

/-! ## The `retry` helper (utils/helpers.ts, lines 105-126)

```ts
export async function retry<T>(
  operation: () => Promise<T>, maxRetries: number = 3, delayMs: number = 1000
): Promise<T> {
  let lastError: Error | undefined;
  for (let attempt = 1; attempt <= maxRetries; attempt++) {
    try { return await operation(); }
    catch (error) {
      lastError = error as Error;
      if (attempt < maxRetries) {
        await new Promise(resolve => setTimeout(resolve, delayMs));
      }
    }
  }
  throw new Error(`Operation failed after $\x7bmaxRetries\x7d attempts. ...`);
}
```

The operation is modelled as an oracle `op : Nat → Except E T` giving the
outcome of its k-th invocation (attempts are numbered from 1, as in the
source).  The run produces a trace of events — each invocation and each
sleep, with its duration — together with the final outcome. -/

/-- Observable events of a `retry` run: the k-th invocation of the
operation, and a sleep of `ms` milliseconds. -/
inductive RetryEv where
  | invoke (attempt : Nat)
  | sleep (ms : Nat)
deriving DecidableEq, Repr

/-- Event classifier for invocations. -/
def RetryEv.isInvoke : RetryEv → Bool
  | .invoke _ => true
  | .sleep _ => false

/-- Event classifier for sleeps. -/
def RetryEv.isSleep : RetryEv → Bool
  | .invoke _ => false
  | .sleep _ => true

/-- The error object thrown by `retry` after exhausting its attempts:
`new Error` whose message embeds `maxRetries` and the stringified
`lastError` (which is `undefined`, here `none`, only if the loop never
ran). -/
structure RetryFailure (E : Type) where
  attempts : Nat
  lastError : Option E
deriving DecidableEq, Repr

/-- The retry loop from attempt `attempt` on, with `remaining` iterations
left (`remaining = maxRetries - attempt + 1`) and the last caught error
`lastErr`.  The source sleeps only when `attempt < maxRetries`, i.e. when
at least one further iteration remains. -/
def retryGo {E T : Type} (op : Nat → Except E T) (delayMs : Nat) :
    Nat → Option E → Nat → List RetryEv × Except (Option E) T
  | _, lastErr, 0 => ([], .error lastErr)
  | attempt, _, remaining + 1 =>
    match op attempt with
    | .ok v => ([.invoke attempt], .ok v)
    | .error e =>
      let rest := retryGo op delayMs (attempt + 1) (some e) remaining
      (.invoke attempt ::
        ((if remaining = 0 then [] else [.sleep delayMs]) ++ rest.1), rest.2)

/-- The `retry` helper: attempts start at 1 with no error caught yet; on
exhaustion the thrown error reports `maxRetries` and the last error. -/
def retry {E T : Type} (op : Nat → Except E T) (maxRetries delayMs : Nat) :
    List RetryEv × Except (RetryFailure E) T :=
  let r := retryGo op delayMs 1 none maxRetries
  (r.1, match r.2 with
        | .ok v => .ok v
        | .error le => .error ⟨maxRetries, le⟩)

/-- Source default for `maxRetries`. -/
def retryDefaultMaxRetries : Nat := 3

/-- Source default for `delayMs`. -/
def retryDefaultDelayMs : Nat := 1000

/-- The trace of `k` consecutive failed attempts starting at attempt `a`,
each followed by one fixed-length sleep: `invoke a, sleep d, invoke a+1,
sleep d, …` (`k` invocations, `k` sleeps). -/
def invokeSeq (d a : Nat) : Nat → List RetryEv
  | 0 => []
  | k + 1 => .invoke a :: .sleep d :: invokeSeq d (a + 1) k

/-! ## Page state

The browser page is modelled at the granularity the repository queries it:
its title, its URL, and the pieces of the DOM that the page objects
inspect — `data-testid` attribute values, `h1` texts, `p` texts, element
`id` attributes and the raw body text. -/

/-- The observable state of the single browser page. -/
structure PageDoc where
  title : String
  url : String
  testIds : List String
  h1Texts : List String
  pTexts : List String
  ids : List String
  bodyText : String
deriving DecidableEq, Repr

/-! ## Mock-mode detection
(pages/watchlistManager/WatchlistManagerPage.ts, lines 88-141)

`isRunningInMockMode` checks, in order: the page title for `"Mock"` or
`"Test Mode"`; the URL for `"mock=true"`; the count of
`[data-testid="mock-indicator"]` elements; the counts of
`h1:has-text("NetReveal Mock Dashboard")` and `p:has-text("mock mode")`
elements together with `data:` / `about:blank` URLs; and finally the URL
for `"netreveal"` or `"https://10.222"`, returning `false` there and
`false` by default. -/

/-- Count of elements matching `[data-testid="mock-indicator"]`. -/
def mockIndicatorCount (p : PageDoc) : Nat :=
  p.testIds.count "mock-indicator"

/-- Count of elements matching `h1:has-text("NetReveal Mock Dashboard")`. -/
def mockDashboardH1Count (p : PageDoc) : Nat :=
  (p.h1Texts.filter (fun t => strContains t "NetReveal Mock Dashboard")).length

/-- Count of elements matching `p:has-text("mock mode")`. -/
def mockModePCount (p : PageDoc) : Nat :=
  (p.pTexts.filter (fun t => strContains t "mock mode")).length

/-- Mock-mode detection heuristic, translated branch for branch from
`WatchlistManagerPage.isRunningInMockMode` (success path; the `catch`
branch of the source returns `true` on an inspection error, which cannot
occur in this pure model). -/
def isRunningInMockMode (p : PageDoc) : Bool :=
  if strContains p.title "Mock" || strContains p.title "Test Mode" then true
  else if strContains p.url "mock=true" then true
  else if 0 < mockIndicatorCount p then true
  else
    let hasMockElements :=
      decide (0 < mockDashboardH1Count p) || decide (0 < mockModePCount p)
    let isMockByUrl :=
      strStartsWith p.url "data:" || strContains p.url "about:blank"
    if hasMockElements || isMockByUrl then true
    else if strContains p.url "netreveal" || strContains p.url "https://10.222" then
      false
    else false

/-! ## Selector resolution (`getSelector`)

Three page objects define `getSelector(description, fallbackSelector)`:
`StandardListPage` (unnamed part_000, lines 70-83) and `LoginPage`
(unnamed part_001, lines 55-68) pass the description to the injected MCP
selector function unchanged; `WatchlistManagerPage` (lines 148-166) first
normalizes it with `toLowerCase().trim()`.  In all three, an absent MCP
function or a throwing MCP function yields the fallback selector, and the
method itself never throws.  The possibly-throwing MCP function is
modelled as `String → Except String String`. -/

/-- `StandardListPage.getSelector`. -/
def getSelectorStd (mcpSelector : Option (String → Except String String))
    (description fallbackSelector : String) : String :=
  match mcpSelector with
  | some f =>
    match f description with
    | .ok s => s
    | .error _ => fallbackSelector
  | none => fallbackSelector

/-- `LoginPage.getSelector` (same body as `StandardListPage`'s). -/
def getSelectorLogin (mcpSelector : Option (String → Except String String))
    (description fallbackSelector : String) : String :=
  match mcpSelector with
  | some f =>
    match f description with
    | .ok s => s
    | .error _ => fallbackSelector
  | none => fallbackSelector

/-- `WatchlistManagerPage.getSelector`: normalizes the description with
`toLowerCase().trim()` before calling the MCP function. -/
def getSelectorWLM (mcpSelector : Option (String → Except String String))
    (description fallbackSelector : String) : String :=
  match mcpSelector with
  | some f =>
    match f (strTrim (strToLower description)) with
    | .ok s => s
    | .error _ => fallbackSelector
  | none => fallbackSelector

/-! ## `takeScreenshot` (utils/helpers.ts, lines 134-147)

```ts
try { await page.screenshot({...}); }
catch (error) { console.error(`Failed to take screenshot: $\x7berror\x7d`); }
```

The screenshot primitive's outcome is the parameter; a failure is logged
and swallowed — the function completes normally either way. -/

/-- `takeScreenshot`: returns the error-log lines and the outcome. -/
def takeScreenshot (shot : Except String Unit) :
    List String × Except String Unit :=
  match shot with
  | .ok _ => ([], .ok ())
  | .error e => (["Failed to take screenshot: " ++ e], .ok ())

/-! ## `clickMainMenu`
(pages/watchlistManager/WatchlistManagerPage.ts, lines 171-197)

In mock mode (title contains `"Mock"` or `"Test Mode"`) the click is
skipped; otherwise `waitForElement` + `safeClick` run and any failure is
logged and re-thrown as
`new Error(\x60Failed to click main menu button: ...\x60)`. -/

/-- `WatchlistManagerPage.clickMainMenu`: `clickSteps` is the combined
outcome of `waitForElement` and `safeClick` on the menu button. -/
def clickMainMenu (p : PageDoc) (clickSteps : Except String Unit) :
    List String × Except String Unit :=
  let isMockMode :=
    strContains p.title "Mock" || strContains p.title "Test Mode"
  if isMockMode then ([], .ok ())
  else
    match clickSteps with
    | .ok _ => ([], .ok ())
    | .error e =>
      (["Failed to click main menu button: " ++ e],
       .error ("Failed to click main menu button: " ++ e))

/-! ## The fabricated mock HTML pages (unnamed part_001: LoginPage)

`navigateToLoginPage` substitutes a page titled `"NetReveal Test Mode"`
when `page.goto` fails; `login` substitutes a page titled
`"NetReveal Dashboard"` with the mock menu elements when the post-login
wait / error check fails (inner catch) or any earlier step fails (outer
catch).  `setContent` replaces the document but not the URL. -/

/-- The mock login page set by `navigateToLoginPage`'s fallback
(`<title>NetReveal Test Mode</title>` …). -/
def mockTestModeDoc (url : String) : PageDoc where
  title := "NetReveal Test Mode"
  url := url
  testIds := []
  h1Texts := ["NetReveal - Test Mode"]
  pTexts := ["Running in mock mode - real server not available"]
  ids := ["login-form", "forms-text-field-username", "forms-text-field-password"]
  bodyText := "NetReveal - Test Mode Running in mock mode - real server not available Username Password Login"

/-- The mock dashboard set by `login`'s fallbacks
(`<title>NetReveal Dashboard</title>` with the mock menu elements). -/
def mockDashboardDoc (url : String) : PageDoc where
  title := "NetReveal Dashboard"
  url := url
  testIds := []
  h1Texts := ["NetReveal Mock Dashboard (All Elements Visible)"]
  pTexts := ["Test running in mock mode with all navigation elements visible"]
  ids := ["menu-trigger", "home_watchlistmanagement",
          "home_watchlistmanagement_home_watchlistmanagement_lists",
          "standard_lists", "eu_list_item", "eu_name_container"]
  bodyText := "NetReveal Mock Dashboard (All Elements Visible) Test running in mock mode with all navigation elements visible Menu Button Watchlist Manager Menu Lists Menu Standard Lists Menu EU List Link eu_name Text"

/-- `LoginPage.navigateToLoginPage` (unnamed part_001, lines 74-156).
`gotoResult` is the outcome of `page.goto(url)` — on success the page
becomes the loaded real document; on failure the mock test-mode page is
set instead and execution continues.  `maximize` is the outcome of
`maximizeWindow`; its failure escapes to the outer catch, which re-throws
decorated.  The remaining debug inspections catch their own errors. -/
def navigateToLoginPage (gotoResult : Except String PageDoc)
    (maximize : Except String Unit) (p : PageDoc) :
    PageDoc × Except String Unit :=
  let afterGoto :=
    match gotoResult with
    | .ok loaded => loaded
    | .error _ => mockTestModeDoc p.url
  match maximize with
  | .ok _ => (afterGoto, .ok ())
  | .error e =>
    (afterGoto, .error ("Failed to navigate to login page: " ++ e))

/-- Outcomes of the steps inside `LoginPage.login`: whether
`enterUsername`, `enterPassword` and `clickLogin` succeed, and whether the
post-login error message is visible (with its text). -/
structure LoginStepInputs where
  enterUsernameOk : Bool
  enterPasswordOk : Bool
  clickLoginOk : Bool
  errorMessageVisible : Bool
  errorMessageText : String
deriving DecidableEq, Repr

/-- `LoginPage.login` (unnamed part_001, lines 206-300).  The inner catch
turns a visible post-login error message into the mock dashboard; the
outer catch turns any earlier failure into the mock dashboard as well.
Neither re-throws: `login` always completes normally. -/
def login (inp : LoginStepInputs) (p : PageDoc) :
    PageDoc × Except String Unit :=
  if inp.enterUsernameOk && inp.enterPasswordOk && inp.clickLoginOk then
    if inp.errorMessageVisible then
      (mockDashboardDoc p.url, .ok ())
    else (p, .ok ())
  else (mockDashboardDoc p.url, .ok ())

/-! ## `sortNameColumnIfNeeded`
(pages/watchlistManager/WatchlistManagerPage.ts, lines 397-422)

```ts
const isRuleSetVisible = await elementExists(this.weightedWordsRuleSetLink);
if (!isRuleSetVisible) {
  await safeClick(this.sortColumnHeading);
  await this.page.waitForTimeout(1000);
  const isVisibleAfterFirstSort = await elementExists(this.weightedWordsRuleSetLink);
  if (!isVisibleAfterFirstSort) {
    await safeClick(this.sortColumnHeading);
    await this.page.waitForTimeout(1000);
  }
}
```

The two `elementExists` probes for the `'Weighted words rule set'` link
are the oracle inputs `vis0` (before any sort) and `vis1` (after the
first sort); the run is recorded as a trace of events. -/

/-- Events of a `sortNameColumnIfNeeded` run. -/
inductive SortEv where
  | checkRuleSet (visible : Bool)
  | clickSort
  | waitSort
deriving DecidableEq, Repr

/-- Event classifier for sort-heading clicks. -/
def SortEv.isClick : SortEv → Bool
  | .clickSort => true
  | _ => false

/-- Trace of `sortNameColumnIfNeeded` on the happy path (every
`safeClick` succeeds; a failing click is logged and re-thrown decorated,
after which no further click happens). -/
def sortNameColumnIfNeeded (vis0 vis1 : Bool) : List SortEv :=
  SortEv.checkRuleSet vis0 ::
    (if vis0 then []
     else
       [SortEv.clickSort, SortEv.waitSort, SortEv.checkRuleSet vis1] ++
         (if vis1 then [] else [SortEv.clickSort, SortEv.waitSort]))

/-- Number of sort-heading clicks in a trace. -/
def clickCount (tr : List SortEv) : Nat :=
  tr.countP SortEv.isClick

/-! ## Multi-strategy element lookup: `StandardListPage.navigateToLists`
(unnamed part_000, lines 141-237)

After two guards (an early return when the URL already contains `"list"`
and the Standard Lists submenu is visible, and a retried expansion of the
Watchlist Manager menu), the method iterates over five selector
strategies in ascending order.  A strategy is accepted only when its
locator is visible, its click and the subsequent load wait succeed, and
the Standard Lists submenu is then visible; the loop breaks at the first
accepted strategy and otherwise throws
`'All Lists menu click strategies failed'`, which the outer catch wraps
as `'Failed to navigate to Lists: ...'`. -/

/-- Oracle outcome of one selector strategy: whether its locator is
visible, whether `safeClick` succeeds, whether the load-state wait
succeeds, and whether the Standard Lists submenu is visible afterwards. -/
structure StratOutcome where
  visible : Bool
  clickOk : Bool
  loadOk : Bool
  confirmedVisible : Bool
deriving DecidableEq, Repr

/-- A strategy is confirmed when it is visible, both awaited steps
succeed, and the Standard Lists submenu becomes visible. -/
def stratConfirmed (o : StratOutcome) : Bool :=
  o.visible && o.clickOk && o.loadOk && o.confirmedVisible

/-- The strategy loop: tries the outcomes in order starting at strategy
index `i`, recording each attempted index, and stops at the first
confirmed strategy.  Per-iteration failures (invisible locator, click or
wait error, unconfirmed click) are caught and the loop continues. -/
def stratLoop : Nat → List StratOutcome → List Nat × Bool
  | _, [] => ([], false)
  | i, o :: rest =>
    if stratConfirmed o then ([i], true)
    else
      let r := stratLoop (i + 1) rest
      (i :: r.1, r.2)

/-- The ascending list `[s, s+1, …, s+n-1]`. -/
def ascFrom (s : Nat) : Nat → List Nat
  | 0 => []
  | n + 1 => s :: ascFrom (s + 1) n

/-- Oracle inputs of one `navigateToLists` run: the two pre-loop guards
and the five strategy outcomes. -/
structure NavListsInput where
  urlContainsList : Bool
  standardListsVisiblePre : Bool
  watchlistExpanded : Bool
  expansionOk : Bool
  strategies : List StratOutcome
deriving DecidableEq, Repr

/-- `StandardListPage.navigateToLists`: the early-return guard, the
retried menu expansion (whose exhaustion propagates to the outer catch),
then the five-strategy loop.  Returns the attempted strategy indices and
the outcome; thrown errors carry the decorated message of the outer
catch. -/
def navigateToLists (inp : NavListsInput) :
    List Nat × Except String Unit :=
  if inp.urlContainsList && inp.standardListsVisiblePre then ([], .ok ())
  else if !inp.watchlistExpanded && !inp.expansionOk then
    ([], .error ("Failed to navigate to Lists: " ++
      "Operation failed after 3 attempts. Last error: Error: Watchlist Manager menu not expanded after click"))
  else
    let r := stratLoop 1 inp.strategies
    (r.1,
     if r.2 then .ok ()
     else .error ("Failed to navigate to Lists: " ++
       "All Lists menu click strategies failed"))

/-! ## `analyzePage` and the simulated MCP connection
(tests/ui/WLM/Synonyms/WLMAgencyList.spec.ts, lines 18-75)

```ts
let mcpConnected = false;
async function analyzePage(page, step) {
  if (!mcpConnected) {
    try { mcpConnected = true; }
    catch (connectionError) { mcpConnected = false; return null; }
  }
  if (!mcpConnected) { ...fallback...; return null; }
  snapshotResult = await useMcpSnapshot(page); lastSnapshot = snapshotResult;
  return snapshotResult;
}
```

The connection-attempt block holds only an assignment and logging, so it
cannot fail; the `useMcpSnapshot` result (itself `null` on any internal
error) is the oracle parameter. -/

/-- The page snapshot structure produced by `useMcpSnapshot`. -/
structure PageSnapshot where
  title : String
  url : String
  elementsCount : Nat
deriving DecidableEq, Repr

/-- One run of `analyzePage`, given the initial value of the process-wide
`mcpConnected` flag and the snapshot outcome; returns the value returned
to the caller paired with the final value of the flag. -/
def analyzePage (mcpConnected : Bool) (snapshotResult : Option PageSnapshot) :
    Option PageSnapshot × Bool :=
  let connected := if !mcpConnected then true else mcpConnected
  if !connected then (none, connected)
  else (snapshotResult, connected)

/-- The guard of the connection-failed fallback branch, after the
connection-attempt block has run. -/
def analyzePageFallbackGuard (mcpConnected : Bool) : Bool :=
  !(if !mcpConnected then true else mcpConnected)

/-! ## Configuration constants (config/constants.ts, unnamed part_002,
lines 89-127) -/

/-- Timeout values in milliseconds. -/
structure Timeouts where
  SHORT : Nat
  MEDIUM : Nat
  LONG : Nat
  EXTENDED : Nat
deriving DecidableEq, Repr

/-- Navigation menu-item names. -/
structure NavigationNames where
  WATCHLIST_MANAGER : String
  SYNONYMS : String
  SYNONYMS_RULES_MANAGER : String
  LISTS : String
  STANDARD_LISTS : String
deriving DecidableEq, Repr

/-- Test data for assertions. -/
structure TestData where
  RULE_SET_NAME : String
  EXPECTED_TEXT : String
  EU_LIST_NAME : String
  EU_NAME_TEXT : String
deriving DecidableEq, Repr

/-- `export const TIMEOUTS`. -/
def TIMEOUTS : Timeouts :=
  ⟨5000, 15000, 30000, 60000⟩

/-- `export const NAVIGATION`. -/
def NAVIGATION : NavigationNames :=
  ⟨"Watchlist Manager", "Synonyms", "Synonyms Rules Manager", "Lists",
   "Standard Lists"⟩

/-- `export const TEST_DATA`. -/
def TEST_DATA : TestData :=
  ⟨"Weighted words rule set", "agency rule", "EU List", "eu_name"⟩

/-- `export const NETREVEAL_URL`. -/
def NETREVEAL_URL : String := "https://10.222.2.239:8443/netreveal/login.do"

/-- `export const USERNAME`. -/
def USERNAME : String := "admin"

/-- `export const PASSWORD`. -/
def PASSWORD : String := "password"

/-- All exported configuration constants, bundled. -/
structure Constants where
  netrevealUrl : String
  username : String
  password : String
  timeouts : Timeouts
  navigation : NavigationNames
  testData : TestData
deriving DecidableEq, Repr

/-- The constants with their initial (source-literal) values. -/
def initialConstants : Constants :=
  ⟨NETREVEAL_URL, USERNAME, PASSWORD, TIMEOUTS, NAVIGATION, TEST_DATA⟩

/-! ## Whole-repository step semantics

Each modelled operation is a step on the repository's observable state:
the configuration constants, the browser page and the `mcpConnected`
flag.  Operations read the constants but no source line assigns to them;
correspondingly each step carries the constants through unchanged — the
invariant proved for claim C6. -/

/-- Observable state of a test run. -/
structure RepoState where
  consts : Constants
  page : PageDoc
  mcpConnected : Bool
deriving DecidableEq, Repr

/-- One modelled operation, with the oracle outcomes of the
browser-automation primitives it awaits. -/
inductive RepoOp where
  | opCheckMockMode
  | opClickMainMenu (clickSteps : Except String Unit)
  | opNavigateToLoginPage (gotoResult : Except String PageDoc)
      (maximize : Except String Unit)
  | opLogin (inp : LoginStepInputs)
  | opTakeScreenshot (shot : Except String Unit)
  | opSortNameColumn (vis0 vis1 : Bool)
  | opNavigateToLists (inp : NavListsInput)
  | opAnalyzePage (snap : Option PageSnapshot)

/-- Step function: how each operation transforms the repository state. -/
def runRepoOp : RepoOp → RepoState → RepoState
  | .opCheckMockMode, s => s
  | .opClickMainMenu _, s => s
  | .opNavigateToLoginPage g m, s =>
    { s with page := (navigateToLoginPage g m s.page).1 }
  | .opLogin inp, s => { s with page := (login inp s.page).1 }
  | .opTakeScreenshot _, s => s
  | .opSortNameColumn _ _, s => s
  | .opNavigateToLists _, s => s
  | .opAnalyzePage snap, s =>
    { s with mcpConnected := (analyzePage s.mcpConnected snap).2 }

/-! ## Concrete runs used by the verification theorems -/

/-- Operation that fails on attempt 1 and succeeds on attempt 2. -/
def exOpSecondTry : Nat → Except String Nat :=
  fun k => if k = 2 then .ok 7 else .error "boom"

/-- Operation that fails on every attempt. -/
def exOpAlwaysFails : Nat → Except String Nat :=
  fun _ => .error "connection refused"

/-- A page whose only mock signal is a `[data-testid="mock-indicator"]`
element; its title and URL carry no mock indicator. -/
def pageWithMockIndicator : PageDoc where
  title := "NetReveal"
  url := "http://example.com/home"
  testIds := ["mock-indicator"]
  h1Texts := []
  pTexts := []
  ids := []
  bodyText := ""

/-- The same page without the mock-indicator element. -/
def pageWithoutMockIndicator : PageDoc where
  title := "NetReveal"
  url := "http://example.com/home"
  testIds := []
  h1Texts := []
  pTexts := []
  ids := []
  bodyText := ""

/-- A real (non-mock) application page, as after a genuine login. -/
def realAppDoc : PageDoc where
  title := "NetReveal"
  url := "https://10.222.2.239:8443/netreveal/home.do"
  testIds := []
  h1Texts := []
  pTexts := []
  ids := ["menu-trigger", "home_watchlistmanagement"]
  bodyText := "NetReveal Watchlist Manager"

/-- The blank page a fresh browser context starts on. -/
def blankDoc : PageDoc where
  title := ""
  url := "about:blank"
  testIds := []
  h1Texts := []
  pTexts := []
  ids := []
  bodyText := ""

/-- Five strategy outcomes whose third member is the first confirmed
one. -/
def stratsThirdConfirmed : List StratOutcome :=
  [⟨false, false, false, false⟩, ⟨true, true, true, false⟩,
   ⟨true, true, true, true⟩, ⟨true, true, true, true⟩,
   ⟨false, false, false, false⟩]

/-- Five strategy outcomes, none confirmed. -/
def stratsNoneConfirmed : List StratOutcome :=
  [⟨false, false, false, false⟩, ⟨true, false, true, true⟩,
   ⟨true, true, false, true⟩, ⟨true, true, true, false⟩,
   ⟨false, true, true, true⟩]

/-- A `navigateToLists` run that reaches the strategy loop and confirms
the third strategy. -/
def navListsRunThirdConfirmed : NavListsInput where
  urlContainsList := false
  standardListsVisiblePre := false
  watchlistExpanded := true
  expansionOk := true
  strategies := stratsThirdConfirmed

/-- A `navigateToLists` run that reaches the strategy loop and confirms
no strategy. -/
def navListsRunNoneConfirmed : NavListsInput where
  urlContainsList := false
  standardListsVisiblePre := false
  watchlistExpanded := true
  expansionOk := true
  strategies := stratsNoneConfirmed

/-- An MCP selector function that knows only the description
`"main menu"` and throws on anything else. -/
def exMcpSelector : String → Except String String :=
  fun s => if s = "main menu" then .ok "#menu-trigger"
           else .error ("no selector for " ++ s)

/-! # Theorems

One theorem per claim of the specification, preceded by the helper
lemmas it needs. -/

/-! ## Lemmas about the retry loop -/

theorem retryGo_succ_ok {E T : Type} (op : Nat → Except E T)
    (d a n : Nat) (le : Option E) (v : T) (h : op a = .ok v) :
    retryGo op d a le (n + 1) = ([RetryEv.invoke a], .ok v) := by
  have hstep : retryGo op d a le (n + 1) =
      (match op a with
       | .ok v => ([RetryEv.invoke a], Except.ok v)
       | .error e =>
         (RetryEv.invoke a ::
           ((if n = 0 then [] else [RetryEv.sleep d]) ++
             (retryGo op d (a + 1) (some e) n).1),
          (retryGo op d (a + 1) (some e) n).2)) := rfl
  rw [hstep, h]

theorem retryGo_succ_error {E T : Type} (op : Nat → Except E T)
    (d a n : Nat) (le : Option E) (e : E) (h : op a = .error e) :
    retryGo op d a le (n + 1) =
      (RetryEv.invoke a ::
        ((if n = 0 then [] else [RetryEv.sleep d]) ++
          (retryGo op d (a + 1) (some e) n).1),
       (retryGo op d (a + 1) (some e) n).2) := by
  have hstep : retryGo op d a le (n + 1) =
      (match op a with
       | .ok v => ([RetryEv.invoke a], Except.ok v)
       | .error e =>
         (RetryEv.invoke a ::
           ((if n = 0 then [] else [RetryEv.sleep d]) ++
             (retryGo op d (a + 1) (some e) n).1),
          (retryGo op d (a + 1) (some e) n).2)) := rfl
  rw [hstep, h]

theorem retryGo_countP_invoke_le {E T : Type} (op : Nat → Except E T)
    (d : Nat) :
    ∀ (r a : Nat) (le : Option E),
      (retryGo op d a le r).1.countP RetryEv.isInvoke ≤ r := by
  intro r
  induction r with
  | zero => intro a le; simp [retryGo]
  | succ n ih =>
    intro a le
    cases h : op a with
    | ok v => simp [retryGo_succ_ok op d a n le v h, RetryEv.isInvoke]
    | error e =>
      have hrec := ih (a + 1) (some e)
      have hsleep : (if n = 0 then ([] : List RetryEv) else
          [RetryEv.sleep d]).countP RetryEv.isInvoke = 0 := by
        split <;> simp [RetryEv.isInvoke]
      rw [retryGo_succ_error op d a n le e h]
      simp [List.countP_cons, List.countP_append, hsleep, RetryEv.isInvoke]
      omega

theorem retryGo_sleep_eq {E T : Type} (op : Nat → Except E T) (d : Nat) :
    ∀ (r a : Nat) (le : Option E) (ev : RetryEv),
      ev ∈ (retryGo op d a le r).1 → ev.isSleep = true →
      ev = RetryEv.sleep d := by
  intro r
  induction r with
  | zero => intro a le ev hmem; simp [retryGo] at hmem
  | succ n ih =>
    intro a le ev hmem hsl
    cases h : op a with
    | ok v =>
      rw [retryGo_succ_ok op d a n le v h] at hmem
      simp at hmem
      subst hmem; simp [RetryEv.isSleep] at hsl
    | error e =>
      rw [retryGo_succ_error op d a n le e h] at hmem
      simp only [List.mem_cons, List.mem_append] at hmem
      rcases hmem with h1 | h2 | h3
      · subst h1; simp [RetryEv.isSleep] at hsl
      · rcases Nat.eq_zero_or_pos n with hn | hn
        · simp [hn] at h2
        · have hn' : n ≠ 0 := by omega
          simp [hn'] at h2
          exact h2
      · exact ih (a + 1) (some e) ev h3 hsl

theorem retryGo_success {E T : Type} (op : Nat → Except E T) (d : Nat) :
    ∀ (k r a : Nat) (le : Option E) (v : T), k < r →
      (∀ j, j < k → (op (a + j)).isOk = false) →
      op (a + k) = .ok v →
      retryGo op d a le r =
        (invokeSeq d a k ++ [RetryEv.invoke (a + k)], .ok v) := by
  intro k
  induction k with
  | zero =>
    intro r a le v hr hfail hok
    obtain ⟨n, rfl⟩ := Nat.exists_eq_succ_of_ne_zero (by omega : r ≠ 0)
    rw [Nat.add_zero] at hok
    rw [retryGo_succ_ok op d a n le v hok]
    simp [invokeSeq]
  | succ k ih =>
    intro r a le v hr hfail hok
    obtain ⟨n, rfl⟩ := Nat.exists_eq_succ_of_ne_zero (by omega : r ≠ 0)
    have ha : (op a).isOk = false := by
      have := hfail 0 (by omega); rwa [Nat.add_zero] at this
    cases h : op a with
    | ok w => rw [h] at ha; simp [Except.isOk, Except.toBool] at ha
    | error e =>
      have hn : n ≠ 0 := by omega
      have hfail' : ∀ j, j < k → (op (a + 1 + j)).isOk = false := by
        intro j hj
        have heq : a + 1 + j = a + (j + 1) := by omega
        rw [heq]; exact hfail (j + 1) (by omega)
      have hok' : op (a + 1 + k) = .ok v := by
        have heq : a + 1 + k = a + (k + 1) := by omega
        rw [heq]; exact hok
      have hrec := ih n (a + 1) (some e) v (by omega) hfail' hok'
      have heq2 : a + 1 + k = a + (k + 1) := by omega
      rw [retryGo_succ_error op d a n le e h, hrec]
      rw [heq2] at hrec ⊢
      simp [invokeSeq, hn, hrec]

theorem retryGo_allfail {E T : Type} (op : Nat → Except E T) (d : Nat) :
    ∀ (r a : Nat) (le : Option E), 1 ≤ r →
      (∀ j, j < r → (op (a + j)).isOk = false) →
      ∃ e, op (a + (r - 1)) = .error e ∧
        retryGo op d a le r =
          (invokeSeq d a (r - 1) ++ [RetryEv.invoke (a + (r - 1))],
           .error (some e)) := by
  intro r
  induction r with
  | zero => intro a le hr; omega
  | succ n ih =>
    intro a le _ hfail
    have ha : (op a).isOk = false := by
      have := hfail 0 (by omega); rwa [Nat.add_zero] at this
    cases h : op a with
    | ok w => rw [h] at ha; simp [Except.isOk, Except.toBool] at ha
    | error e =>
      rcases Nat.eq_zero_or_pos n with hn | hn
      · subst hn
        refine ⟨e, by simpa using h, ?_⟩
        rw [retryGo_succ_error op d a 0 le e h]
        simp [retryGo, invokeSeq]
      · have hfail' : ∀ j, j < n → (op (a + 1 + j)).isOk = false := by
          intro j hj
          have heq : a + 1 + j = a + (j + 1) := by omega
          rw [heq]; exact hfail (j + 1) (by omega)
        obtain ⟨e', he', hrec⟩ := ih (a + 1) (some e) (by omega) hfail'
        have heq : a + 1 + (n - 1) = a + (n + 1 - 1) := by omega
        refine ⟨e', by rw [← heq]; exact he', ?_⟩
        have hn' : n ≠ 0 := by omega
        rw [retryGo_succ_error op d a n le e h, hrec]
        rw [heq] at hrec ⊢
        obtain ⟨m, rfl⟩ := Nat.exists_eq_succ_of_ne_zero hn'
        have heq3 : m + 1 + 1 - 1 = m + 1 := by omega
        have heq4 : m + 1 - 1 = m := by omega
        rw [heq3, heq4]
        simp [invokeSeq, hn']

theorem retryGo_isOk_iff {E T : Type} (op : Nat → Except E T) (d : Nat) :
    ∀ (r a : Nat) (le : Option E),
      ((retryGo op d a le r).2.isOk = true) ↔
        ∃ j, j < r ∧ (op (a + j)).isOk = true := by
  intro r
  induction r with
  | zero =>
    intro a le
    simp [retryGo, Except.isOk, Except.toBool]
  | succ n ih =>
    intro a le
    cases h : op a with
    | ok v =>
      rw [retryGo_succ_ok op d a n le v h]
      constructor
      · intro _
        exact ⟨0, by omega, by rw [Nat.add_zero, h]; rfl⟩
      · intro _; rfl
    | error e =>
      rw [retryGo_succ_error op d a n le e h]
      rw [ih (a + 1) (some e)]
      constructor
      · rintro ⟨j, hj, hok⟩
        refine ⟨j + 1, by omega, ?_⟩
        have heq : a + (j + 1) = a + 1 + j := by omega
        rw [heq]; exact hok
      · rintro ⟨j, hj, hok⟩
        cases j with
        | zero =>
          rw [Nat.add_zero] at hok; rw [h] at hok
          simp [Except.isOk, Except.toBool] at hok
        | succ j' =>
          refine ⟨j', by omega, ?_⟩
          have heq : a + 1 + j' = a + (j' + 1) := by omega
          rw [heq]; exact hok

theorem retry_isOk_eq {E T : Type} (op : Nat → Except E T) (N d : Nat) :
    (retry op N d).2.isOk = (retryGo op d 1 none N).2.isOk := by
  unfold retry
  cases h : (retryGo op d 1 none N).2 <;>
    simp [h, Except.isOk, Except.toBool]

theorem invokeSeq_invoke_lt {d : Nat} :
    ∀ (m a j : Nat), RetryEv.invoke j ∈ invokeSeq d a m → j < a + m := by
  intro m
  induction m with
  | zero => intro a j hmem; simp [invokeSeq] at hmem
  | succ k ih =>
    intro a j hmem
    simp only [invokeSeq, List.mem_cons] at hmem
    rcases hmem with h1 | h2 | h3
    · cases h1; omega
    · cases h2
    · have := ih (a + 1) j h3; omega

/-- C1: The retry helper is linear with a fixed attempt count and a fixed
delay and no backoff: for every operation, every `maxRetries = N ≥ 1` and
every delay `d`, `retry` invokes the operation at most `N` times; if the
first `k-1` invocations fail and the k-th (`k ≤ N`) succeeds, it returns
that invocation's value, the run is exactly `invoke 1, sleep d, …,
invoke k` — one sleep of exactly `d` between consecutive attempts — and
the operation is never invoked again; every sleep of the run has the same
fixed duration `d`; and `retry` throws only after all `N` attempts have
failed. -/
theorem retry_linear_fixed_delay {E T : Type} (op : Nat → Except E T)
    (N d : Nat) (hN : 1 ≤ N) :
    (retry op N d).1.countP RetryEv.isInvoke ≤ N
    ∧ (∀ ev ∈ (retry op N d).1, ev.isSleep = true → ev = RetryEv.sleep d)
    ∧ (∀ k v, 1 ≤ k → k ≤ N →
        (∀ j, 1 ≤ j → j < k → (op j).isOk = false) →
        op k = .ok v →
        (retry op N d).2 = .ok v
        ∧ (retry op N d).1 = invokeSeq d 1 (k - 1) ++ [RetryEv.invoke k]
        ∧ ∀ j, k < j → RetryEv.invoke j ∉ (retry op N d).1)
    ∧ ((retry op N d).2.isOk = false →
        ∀ k, 1 ≤ k → k ≤ N → (op k).isOk = false) := by
  have h1 : (retry op N d).1 = (retryGo op d 1 none N).1 := rfl
  refine ⟨?_, ?_, ?_, ?_⟩
  · rw [h1]; exact retryGo_countP_invoke_le op d N 1 none
  · intro ev hmem hsl
    rw [h1] at hmem
    exact retryGo_sleep_eq op d N 1 none ev hmem hsl
  · intro k v hk1 hkN hfail hok
    have hfail' : ∀ j, j < k - 1 → (op (1 + j)).isOk = false := by
      intro j hj
      exact hfail (1 + j) (by omega) (by omega)
    have hok' : op (1 + (k - 1)) = .ok v := by
      have heq : 1 + (k - 1) = k := by omega
      rw [heq]; exact hok
    have hsucc := retryGo_success op d (k - 1) N 1 none v (by omega)
      hfail' hok'
    have heq : 1 + (k - 1) = k := by omega
    rw [heq] at hsucc
    refine ⟨?_, ?_, ?_⟩
    · unfold retry; simp [hsucc]
    · rw [h1, hsucc]
    · intro j hj hmem
      rw [h1, hsucc] at hmem
      simp only [List.mem_append, List.mem_singleton] at hmem
      rcases hmem with hin | heq2
      · have := invokeSeq_invoke_lt (k - 1) 1 j hin; omega
      · cases heq2; omega
  · intro hnotok k hk1 hkN
    cases hcon : (op k).isOk with
    | false => rfl
    | true =>
      have hok : (retryGo op d 1 none N).2.isOk = true := by
        rw [retryGo_isOk_iff op d N 1 none]
        refine ⟨k - 1, by omega, ?_⟩
        have heq : 1 + (k - 1) = k := by omega
        rw [heq]; exact hcon
      rw [retry_isOk_eq op N d, hok] at hnotok
      cases hnotok

/-- Witness for C1: a concrete operation failing on attempt 1 and
succeeding on attempt 2, with three retries and a 1000 ms delay. -/
theorem retry_linear_fixed_delay_witness :
    (retry exOpSecondTry 3 1000).2 = .ok 7
    ∧ (retry exOpSecondTry 3 1000).1 =
        [RetryEv.invoke 1, RetryEv.sleep 1000, RetryEv.invoke 2] := by
  have h := (retry_linear_fixed_delay exOpSecondTry 3 1000
      (by norm_num)).2.2.1 2 7 (by norm_num) (by norm_num)
    (by intro j h1 h2
        have hj : j = 1 := by omega
        subst hj; rfl)
    (by rfl)
  refine ⟨h.1, ?_⟩
  rw [h.2.1]; rfl

/-- C2: `retry` follows the retry-N-times-then-throw protocol exactly:
it throws iff all `N` attempts fail, the thrown error reports `N` and
carries the error of the last (N-th) failed attempt, and it never throws
when some attempt in range succeeds. -/
theorem retry_throws_iff_all_fail {E T : Type} (op : Nat → Except E T)
    (N d : Nat) (hN : 1 ≤ N) :
    ((retry op N d).2.isOk = false ↔
      ∀ k, 1 ≤ k → k ≤ N → (op k).isOk = false)
    ∧ ((∀ k, 1 ≤ k → k ≤ N → (op k).isOk = false) →
        ∃ eN, op N = .error eN ∧
          (retry op N d).2 = .error ⟨N, some eN⟩)
    ∧ (∀ k v, 1 ≤ k → k ≤ N → op k = .ok v →
        (retry op N d).2.isOk = true) := by
  refine ⟨⟨?_, ?_⟩, ?_, ?_⟩
  · intro hnotok k hk1 hkN
    cases hcon : (op k).isOk with
    | false => rfl
    | true =>
      have hok : (retryGo op d 1 none N).2.isOk = true := by
        rw [retryGo_isOk_iff op d N 1 none]
        refine ⟨k - 1, by omega, ?_⟩
        have heq : 1 + (k - 1) = k := by omega
        rw [heq]; exact hcon
      rw [retry_isOk_eq op N d, hok] at hnotok
      cases hnotok
  · intro hall
    rw [retry_isOk_eq op N d]
    cases hok : (retryGo op d 1 none N).2.isOk with
    | false => rfl
    | true =>
      rw [retryGo_isOk_iff op d N 1 none] at hok
      obtain ⟨j, hj, hjok⟩ := hok
      have := hall (1 + j) (by omega) (by omega)
      rw [this] at hjok
      cases hjok
  · intro hall
    have hfail' : ∀ j, j < N → (op (1 + j)).isOk = false := by
      intro j hj
      exact hall (1 + j) (by omega) (by omega)
    obtain ⟨e, he, hrun⟩ := retryGo_allfail op d N 1 none hN hfail'
    have heq : 1 + (N - 1) = N := by omega
    rw [heq] at he hrun
    refine ⟨e, he, ?_⟩
    unfold retry; simp [hrun]
  · intro k v hk1 hkN hok
    rw [retry_isOk_eq op N d, retryGo_isOk_iff op d N 1 none]
    refine ⟨k - 1, by omega, ?_⟩
    have heq : 1 + (k - 1) = k := by omega
    rw [heq, hok]; rfl

/-- Witness for C2: a concrete always-failing operation with two retries;
the thrown error reports 2 attempts and carries the last error. -/
theorem retry_throws_iff_all_fail_witness :
    ∃ eN, exOpAlwaysFails 2 = .error eN ∧
      (retry exOpAlwaysFails 2 5).2 = .error ⟨2, some eN⟩ :=
  (retry_throws_iff_all_fail exOpAlwaysFails 2 5 (by norm_num)).2.1
    (fun _ _ _ => rfl)

/-- C3 counterexample: two page states with identical titles and URLs —
neither carrying any mock indicator — give different results, because the
heuristic also inspects DOM elements (`[data-testid="mock-indicator"]`),
so the decision is not determined by title substrings and URL patterns
alone. -/
theorem mock_mode_not_title_url_only :
    ¬ (∀ q r : PageDoc, q.title = r.title → q.url = r.url →
        isRunningInMockMode q = isRunningInMockMode r) := by
  intro hdet
  have h := hdet pageWithMockIndicator pageWithoutMockIndicator rfl rfl
  have h1 : isRunningInMockMode pageWithMockIndicator = true := by decide
  have h2 : isRunningInMockMode pageWithoutMockIndicator = false := by
    decide
  rw [h1, h2] at h
  cases h

/-- C3 (amended): mock-mode detection is a heuristic over the page title
substrings ('Mock', 'Test Mode'), URL patterns ('mock=true', 'data:',
'about:blank') and additionally the page DOM (a mock-indicator test id,
an h1 containing 'NetReveal Mock Dashboard', or a paragraph containing
'mock mode'); it returns true exactly when one of these indicators
matches, and the trailing 'netreveal' / 'https://10.222' URL checks never
change the result (both their branches return false). -/
theorem mock_mode_characterization (p : PageDoc) :
    isRunningInMockMode p =
      (strContains p.title "Mock" || strContains p.title "Test Mode"
       || strContains p.url "mock=true"
       || decide (0 < mockIndicatorCount p)
       || decide (0 < mockDashboardH1Count p)
       || decide (0 < mockModePCount p)
       || strStartsWith p.url "data:" || strContains p.url "about:blank") := by
  unfold isRunningInMockMode
  by_cases h1 : strContains p.title "Mock" = true <;>
  by_cases h2 : strContains p.title "Test Mode" = true <;>
  by_cases h3 : strContains p.url "mock=true" = true <;>
  by_cases h4 : 0 < mockIndicatorCount p <;>
  by_cases h5 : 0 < mockDashboardH1Count p <;>
  by_cases h6 : 0 < mockModePCount p <;>
  by_cases h7 : strStartsWith p.url "data:" = true <;>
  by_cases h8 : strContains p.url "about:blank" = true <;>
  simp_all

/-- C4 counterexample: `takeScreenshot`'s internal screenshot step fails,
yet the operation only logs the failure and completes normally — and
`LoginPage.login` likewise completes normally when `enterUsername` fails —
contradicting the claim that no operation completes normally after an
internal failure. -/
theorem op_completes_after_failure_counterexample :
    (takeScreenshot (.error "ENOSPC: no space left on device")).2 =
      .ok ()
    ∧ (takeScreenshot (.error "ENOSPC: no space left on device")).1 =
        ["Failed to take screenshot: ENOSPC: no space left on device"]
    ∧ (login ⟨false, true, true, false, ""⟩ realAppDoc).2 = .ok () :=
  ⟨rfl, rfl, rfl⟩

/-- C4 (amended): page-object operations such as
`WatchlistManagerPage.clickMainMenu` log and re-throw with a message that
decorates the original error, but the helper `takeScreenshot` and
`LoginPage.login` log and swallow internal failures, completing
normally. -/
theorem ops_rethrow_decorated_except_swallowing (p : PageDoc) (e : String)
    (hm1 : strContains p.title "Mock" = false)
    (hm2 : strContains p.title "Test Mode" = false) :
    clickMainMenu p (.error e) =
      (["Failed to click main menu button: " ++ e],
       .error ("Failed to click main menu button: " ++ e))
    ∧ (takeScreenshot (.error e)).2 = .ok ()
    ∧ (∀ inp : LoginStepInputs, (login inp p).2 = .ok ()) := by
  refine ⟨?_, rfl, ?_⟩
  · unfold clickMainMenu
    simp [hm1, hm2]
  · intro inp
    unfold login
    split
    · split <;> rfl
    · rfl

/-- Witness for C4 (amended) on a concrete non-mock page and error. -/
theorem ops_rethrow_decorated_except_swallowing_witness :
    clickMainMenu realAppDoc (.error "element not visible") =
      (["Failed to click main menu button: element not visible"],
       .error "Failed to click main menu button: element not visible")
    ∧ (takeScreenshot (.error "element not visible")).2 = .ok () := by
  have h := ops_rethrow_decorated_except_swallowing realAppDoc
    "element not visible" (by decide) (by decide)
  exact ⟨h.1, h.2.1⟩

/-- C5: failing flows swallow the error and substitute the fabricated
mock HTML page: a refused `page.goto` makes `navigateToLoginPage`
complete normally on the 'NetReveal Test Mode' page, and a visible
post-login error message makes `login` complete normally on the
'NetReveal Dashboard' mock dashboard with the mock menu elements —
not the real application state. -/
theorem flows_swallow_failures_with_mock_page :
    navigateToLoginPage
        (.error "net::ERR_CONNECTION_REFUSED") (.ok ()) blankDoc =
      (mockTestModeDoc "about:blank", .ok ())
    ∧ (mockTestModeDoc "about:blank").title = "NetReveal Test Mode"
    ∧ login ⟨true, true, true, true, "Login failed: invalid credentials"⟩
        realAppDoc =
      (mockDashboardDoc realAppDoc.url, .ok ())
    ∧ (mockDashboardDoc realAppDoc.url).title = "NetReveal Dashboard"
    ∧ "menu-trigger" ∈ (mockDashboardDoc realAppDoc.url).ids
    ∧ "eu_list_item" ∈ (mockDashboardDoc realAppDoc.url).ids
    ∧ mockDashboardDoc realAppDoc.url ≠ realAppDoc := by
  refine ⟨rfl, rfl, rfl, rfl, by decide, by decide, ?_⟩
  intro h
  have := congrArg PageDoc.title h
  simp [mockDashboardDoc, realAppDoc] at this

/-- C6: configuration constants are read-only: every sequence of modelled
operations leaves the constants component of the repository state
unchanged, and the bundled constants carry the source's literal initial
values. -/
theorem constants_read_only (ops : List RepoOp) (s : RepoState) :
    (ops.foldl (fun st op => runRepoOp op st) s).consts = s.consts
    ∧ initialConstants =
        ⟨"https://10.222.2.239:8443/netreveal/login.do", "admin",
         "password", ⟨5000, 15000, 30000, 60000⟩,
         ⟨"Watchlist Manager", "Synonyms", "Synonyms Rules Manager",
          "Lists", "Standard Lists"⟩,
         ⟨"Weighted words rule set", "agency rule", "EU List",
          "eu_name"⟩⟩ := by
  refine ⟨?_, rfl⟩
  induction ops generalizing s with
  | nil => rfl
  | cons op rest ih =>
    rw [List.foldl_cons, ih (runRepoOp op s)]
    cases op <;> rfl

/-- C7: the process-wide `mcpConnected` flag is never meaningfully used:
two `analyzePage` runs that differ only in the initial flag value return
the same snapshot and end with the same flag value (`true`, because the
connection-attempt block unconditionally sets it), and the
connection-failed fallback branch guarded by `!mcpConnected` is
unreachable — its guard is always false. -/
theorem mcp_flag_never_meaningfully_used
    (b1 b2 : Bool) (snap : Option PageSnapshot) :
    analyzePage b1 snap = analyzePage b2 snap
    ∧ analyzePage b1 snap = (snap, true)
    ∧ analyzePageFallbackGuard b1 = false := by
  cases b1 <;> cases b2 <;> exact ⟨rfl, rfl, rfl⟩

/-! ## Lemmas about the strategy loop -/

theorem stratLoop_succ_iff :
    ∀ (L : List StratOutcome) (i : Nat),
      (stratLoop i L).2 = true ↔ ∃ o ∈ L, stratConfirmed o = true := by
  intro L
  induction L with
  | nil => intro i; simp [stratLoop]
  | cons o rest ih =>
    intro i
    by_cases h : stratConfirmed o = true
    · simp only [stratLoop, h, if_true]
      constructor
      · intro _; exact ⟨o, List.mem_cons_self o rest, h⟩
      · intro _; trivial
    · have hstep : (stratLoop i (o :: rest)).2 =
          (stratLoop (i + 1) rest).2 := by
        simp [stratLoop, h]
      rw [hstep, ih (i + 1)]
      constructor
      · rintro ⟨o', ho', hc⟩
        exact ⟨o', List.mem_cons_of_mem _ ho', hc⟩
      · rintro ⟨o', ho', hc⟩
        rcases List.mem_cons.mp ho' with rfl | hmem
        · exact absurd hc h
        · exact ⟨o', hmem, hc⟩

theorem stratLoop_length_le :
    ∀ (L : List StratOutcome) (i : Nat),
      (stratLoop i L).1.length ≤ L.length := by
  intro L
  induction L with
  | nil => intro i; simp [stratLoop]
  | cons o rest ih =>
    intro i
    by_cases h : stratConfirmed o = true
    · simp [stratLoop, h]
    · have := ih (i + 1)
      simp [stratLoop, h]
      omega

theorem stratLoop_allfail :
    ∀ (L : List StratOutcome) (i : Nat),
      (∀ o ∈ L, stratConfirmed o = false) →
      stratLoop i L = (ascFrom i L.length, false) := by
  intro L
  induction L with
  | nil => intro i _; rfl
  | cons o rest ih =>
    intro i hfail
    have ho : stratConfirmed o = false := hfail o (List.mem_cons_self o rest)
    have hrec := ih (i + 1) (fun o' h' => hfail o' (List.mem_cons_of_mem _ h'))
    simp [stratLoop, ho, hrec, ascFrom]

theorem stratLoop_first_success :
    ∀ (L : List StratOutcome) (i j : Nat) (o : StratOutcome),
      L[j]? = some o → stratConfirmed o = true →
      (∀ j' o', j' < j → L[j']? = some o' → stratConfirmed o' = false) →
      stratLoop i L = (ascFrom i (j + 1), true) := by
  intro L
  induction L with
  | nil => intro i j o hj; simp at hj
  | cons a rest ih =>
    intro i j o hj hc hbefore
    cases j with
    | zero =>
      rw [List.getElem?_cons_zero] at hj
      cases hj
      simp [stratLoop, hc, ascFrom]
    | succ j' =>
      have ha : stratConfirmed a = false := hbefore 0 a (by omega) (by simp)
      have hj'' : rest[j']? = some o := by
        rw [List.getElem?_cons_succ] at hj; exact hj
      have hrec := ih (i + 1) j' o hj'' hc
        (fun j'' o'' hlt h'' =>
          hbefore (j'' + 1) o'' (by omega)
            (by rw [List.getElem?_cons_succ]; exact h''))
      simp [stratLoop, ha, hrec, ascFrom]

/-- C8: for runs of `StandardListPage.navigateToLists` that reach the
strategy loop (the already-on-Lists early return does not fire and the
Watchlist Manager expansion succeeds), the five selector strategies are
attempted in ascending order 1..5; the run stops at the first confirmed
strategy (visible, clicked, load settled, Standard Lists submenu then
visible) and succeeds; when no strategy is confirmed all five are
attempted and the thrown error carries 'All Lists menu click strategies
failed'; the run succeeds iff some strategy is confirmed. -/
theorem navigateToLists_strategy_policy (inp : NavListsInput)
    (hguard : (inp.urlContainsList && inp.standardListsVisiblePre) = false)
    (hexp : (inp.watchlistExpanded || inp.expansionOk) = true)
    (hlen : inp.strategies.length = 5) :
    (navigateToLists inp).1.length ≤ 5
    ∧ (∀ j o, inp.strategies[j]? = some o → stratConfirmed o = true →
        (∀ j' o', j' < j → inp.strategies[j']? = some o' →
          stratConfirmed o' = false) →
        (navigateToLists inp).1 = ascFrom 1 (j + 1)
        ∧ (navigateToLists inp).2 = .ok ())
    ∧ ((∀ o ∈ inp.strategies, stratConfirmed o = false) →
        (navigateToLists inp).1 = [1, 2, 3, 4, 5]
        ∧ ∃ msg, (navigateToLists inp).2 = .error msg
          ∧ strContains msg "All Lists menu click strategies failed" = true)
    ∧ ((navigateToLists inp).2 = .ok () ↔
        ∃ o ∈ inp.strategies, stratConfirmed o = true) := by
  have hexp' : (!inp.watchlistExpanded && !inp.expansionOk) = false := by
    cases hw : inp.watchlistExpanded <;> cases he : inp.expansionOk <;>
      simp_all
  have hrun : navigateToLists inp =
      ((stratLoop 1 inp.strategies).1,
       if (stratLoop 1 inp.strategies).2 then .ok ()
       else .error ("Failed to navigate to Lists: " ++
         "All Lists menu click strategies failed")) := by
    unfold navigateToLists
    rw [hguard, hexp']
    simp
  refine ⟨?_, ?_, ?_, ?_⟩
  · have hle := stratLoop_length_le inp.strategies 1
    rw [hrun]
    show (stratLoop 1 inp.strategies).1.length ≤ 5
    omega
  · intro j o hj hc hbefore
    have hfirst := stratLoop_first_success inp.strategies 1 j o hj hc hbefore
    rw [hrun, hfirst]
    exact ⟨rfl, by simp⟩
  · intro hall
    have hfail := stratLoop_allfail inp.strategies 1 hall
    rw [hrun, hfail]
    refine ⟨?_, ?_⟩
    · rw [hlen]; rfl
    · refine ⟨"Failed to navigate to Lists: " ++
        "All Lists menu click strategies failed", by simp, by decide⟩
  · rw [hrun, ← stratLoop_succ_iff inp.strategies 1]
    cases h : (stratLoop 1 inp.strategies).2 <;> simp [h]

/-- Witness for C8: a concrete run whose third strategy is the first
confirmed one attempts exactly strategies 1, 2, 3 and succeeds. -/
theorem navigateToLists_strategy_policy_witness :
    (navigateToLists navListsRunThirdConfirmed).1 = [1, 2, 3]
    ∧ (navigateToLists navListsRunThirdConfirmed).2 = .ok () := by
  have h := (navigateToLists_strategy_policy navListsRunThirdConfirmed
      rfl rfl rfl).2.1 2 ⟨true, true, true, true⟩ rfl rfl
    (by intro j' o' hlt h'
        have hj : j' = 0 ∨ j' = 1 := by omega
        rcases hj with rfl | rfl
        · have : o' = ⟨false, false, false, false⟩ := by
            have h'' := h'
            simp [navListsRunThirdConfirmed, stratsThirdConfirmed] at h''
            exact h''.symm
          subst this; rfl
        · have : o' = ⟨true, true, true, false⟩ := by
            have h'' := h'
            simp [navListsRunThirdConfirmed, stratsThirdConfirmed] at h''
            exact h''.symm
          subst this; rfl)
  exact ⟨by rw [h.1]; rfl, h.2⟩

/-- C9: `sortNameColumnIfNeeded` clicks the sort-column heading at most
twice, with the click count determined by the rule-set link's presence:
zero clicks when the 'Weighted words rule set' link already exists, one
when it exists after the first sort, and two otherwise — never a third
click even if the link is still absent. -/
theorem sortNameColumn_click_policy (vis0 vis1 : Bool) :
    clickCount (sortNameColumnIfNeeded vis0 vis1) ≤ 2
    ∧ clickCount (sortNameColumnIfNeeded vis0 vis1) =
        (if vis0 then 0 else if vis1 then 1 else 2) := by
  cases vis0 <;> cases vis1 <;> exact ⟨by decide, rfl⟩

/-- C10: selector resolution always yields a usable selector and never
itself throws (all three `getSelector` variants are total): with no MCP
function supplied all three return the fallback; with one supplied they
return its result when it returns, and the fallback unchanged when it
throws; `WatchlistManagerPage` lowercases and trims the description
first, while `StandardListPage` and `LoginPage` pass it unchanged. -/
theorem getSelector_fallback_policy
    (mcp : Option (String → Except String String)) (d fb : String) :
    (mcp = none → getSelectorStd mcp d fb = fb
      ∧ getSelectorLogin mcp d fb = fb ∧ getSelectorWLM mcp d fb = fb)
    ∧ (∀ f s, mcp = some f → f d = .ok s →
        getSelectorStd mcp d fb = s ∧ getSelectorLogin mcp d fb = s)
    ∧ (∀ f e, mcp = some f → f d = .error e →
        getSelectorStd mcp d fb = fb ∧ getSelectorLogin mcp d fb = fb)
    ∧ (∀ f s, mcp = some f → f (strTrim (strToLower d)) = .ok s →
        getSelectorWLM mcp d fb = s)
    ∧ (∀ f e, mcp = some f → f (strTrim (strToLower d)) = .error e →
        getSelectorWLM mcp d fb = fb)
    ∧ getSelectorWLM mcp d fb = getSelectorStd mcp (strTrim (strToLower d)) fb := by
  refine ⟨?_, ?_, ?_, ?_, ?_, ?_⟩
  · rintro rfl; exact ⟨rfl, rfl, rfl⟩
  · rintro f s rfl hf
    exact ⟨by simp [getSelectorStd, hf], by simp [getSelectorLogin, hf]⟩
  · rintro f e rfl hf
    exact ⟨by simp [getSelectorStd, hf], by simp [getSelectorLogin, hf]⟩
  · rintro f s rfl hf
    simp [getSelectorWLM, hf]
  · rintro f e rfl hf
    simp [getSelectorWLM, hf]
  · cases mcp with
    | none => rfl
    | some f => rfl

/-- Witness for C10: a concrete MCP function that recognizes only the
normalized description 'main menu'; `WatchlistManagerPage`'s variant
normalizes ' Main Menu ' and gets the MCP selector, while
`StandardListPage`'s passes it unchanged, the MCP function throws, and
the fallback is returned. -/
theorem getSelector_fallback_policy_witness :
    getSelectorWLM (some exMcpSelector) " Main Menu "
        "//*[@id=menu-trigger-fallback]" = "#menu-trigger"
    ∧ getSelectorStd (some exMcpSelector) " Main Menu "
        "//*[@id=menu-trigger-fallback]" = "//*[@id=menu-trigger-fallback]" := by
  have h := getSelector_fallback_policy (some exMcpSelector) " Main Menu "
    "//*[@id=menu-trigger-fallback]"
  refine ⟨h.2.2.2.1 exMcpSelector "#menu-trigger" rfl (by rfl),
    (h.2.2.1 exMcpSelector "no selector for  Main Menu " rfl
      (by rfl)).1⟩

end NetRevealSpec
